import Mathlib

/-!
Verification of the apptainer OCI launcher's bundle-construction and
runtime-spec finalization pipeline, as a shallow embedding of the Go sources
(`internal/pkg/runtime/launcher/oci/launcher_linux.go`,
`pkg/ocibundle/native/bundle_linux.go`, `internal/pkg/util/bin` and the two
earlier revisions of the launcher and CLI glue).  Machine integers (uint32)
are embedded as `Nat`; every arithmetic step that could overflow in Go is
guarded by the same comparison the Go code performs, so no wraparound is
reachable in the embedded paths.  Fallible Go functions return `Except`.
-/

namespace Apptainer

/-! ## Go string primitives

Executable models of the `strings` package functions used by the sources:
`strings.HasPrefix`, `strings.Contains`, `strings.TrimPrefix`, `strings.Join`
and the key/value split performed by `strings.SplitN(s, "=", 2)`.  Go strings
are byte strings; all strings handled here are ASCII, so `List Char` is an
exact model. -/

/-- `strings.HasPrefix s pre`. -/
def goHasPre (s pre : String) : Bool :=
  pre.data.isPrefixOf s.data

/-- One step of substring search over the character list of the haystack. -/
def goContainsAux (sub : List Char) : List Char → Bool
  | [] => sub.isEmpty
  | c :: t => sub.isPrefixOf (c :: t) || goContainsAux sub t

/-- `strings.Contains s sub`: `sub` occurs as a (contiguous) substring of `s`. -/
def goContains (s sub : String) : Bool :=
  goContainsAux sub.data s.data

/-- `strings.TrimPrefix s pre`. -/
def goTrimPre (s pre : String) : String :=
  if goHasPre s pre then String.mk (s.data.drop pre.data.length) else s

/-- `strings.Join l sep`. -/
def goJoin (l : List String) (sep : String) : String :=
  match l with
  | [] => ""
  | [s] => s
  | s :: s₂ :: rest => s ++ sep ++ goJoin (s₂ :: rest) sep

/-- Splits a character list at the first `=`, accumulating the key in
reverse. -/
def splitEnvKVAux (acc : List Char) : List Char → Option (String × String)
  | [] => none
  | c :: t =>
    if c = '=' then some (String.mk acc.reverse, String.mk t)
    else splitEnvKVAux (c :: acc) t

/-- The key/value split `strings.SplitN(s, "=", 2)` performed on environment
entries: `none` when the entry contains no `=` (the Go loop `continue`s),
otherwise the part before the first `=` and everything after it. -/
def splitEnvKV (s : String) : Option (String × String) :=
  splitEnvKVAux [] s.data

/-! ## Identity mapping (§ Identity Mapper)

`specs.LinuxIDMapping` with `uint32` fields embedded as `Nat`. -/

/-- OCI `specs.LinuxIDMapping`: field order `containerID`, `hostID`, `size`
matches the Go struct. -/
structure LinuxIDMapping where
  containerID : Nat
  hostID : Nat
  size : Nat
deriving DecidableEq, Repr

/-- Modelled from the spec: `reverseMapByRange` — the function itself is not
under `src/` (only its unit test `TestLauncher_reverseMapByRange` and its
caller `getReverseUserMaps` are).  The triple scheme follows spec §4.1
(containerID 0 → hostID 1; containerID targetID → hostID 0, length 1;
remaining range passthrough), with the third triple's size taken as
`subUIDMap.size - targetUID` so that the definition reproduces, exactly, the
expected values pinned by `TestLauncher_reverseMapByRange` in
`launcher_linux_test.go` (see the validation theorems below).  Only the
`size` field of the subordinate ranges is consulted. -/
def reverseMapByRange (targetUID targetGID : Nat)
    (subUIDMap subGIDMap : LinuxIDMapping) :
    List LinuxIDMapping × List LinuxIDMapping :=
  let uidMap : List LinuxIDMapping :=
    if targetUID < subUIDMap.size then
      [⟨0, 1, targetUID⟩,
       ⟨targetUID, 0, 1⟩,
       ⟨targetUID + 1, targetUID + 1, subUIDMap.size - targetUID⟩]
    else
      [⟨0, 1, subUIDMap.size⟩,
       ⟨targetUID, 0, 1⟩]
  let gidMap : List LinuxIDMapping :=
    if targetGID < subGIDMap.size then
      [⟨0, 1, targetGID⟩,
       ⟨targetGID, 0, 1⟩,
       ⟨targetGID + 1, targetGID + 1, subGIDMap.size - targetGID⟩]
    else
      [⟨0, 1, subGIDMap.size⟩,
       ⟨targetGID, 0, 1⟩]
  (uidMap, gidMap)

/-- Sum of the `size` fields of a mapping list. -/
def mapSizeSum (m : List LinuxIDMapping) : Nat :=
  (m.map fun t => t.size).sum

/-- The containerID ranges of consecutive triples are contiguous: each triple
starts exactly where the previous one ends. -/
def rangesContiguous : List LinuxIDMapping → Prop
  | m₁ :: m₂ :: rest =>
    m₂.containerID = m₁.containerID + m₁.size ∧ rangesContiguous (m₂ :: rest)
  | _ => True

/-- Two triples have disjoint containerID ranges `[c, c + size)`. -/
def tripleDisjoint (a b : LinuxIDMapping) : Prop :=
  a.containerID + a.size ≤ b.containerID ∨ b.containerID + b.size ≤ a.containerID

/-- All containerID ranges in the list are pairwise non-overlapping. -/
def rangesDisjoint (m : List LinuxIDMapping) : Prop :=
  m.Pairwise tripleDisjoint

/-- Modelled from the spec: `getReverseUserMaps` — not under `src/` (only its
call sites in `finalizeSpec` are).  Per §4.1 it looks up the invoking user's
subordinate UID/GID ranges (passed here as `subU?`/`subG?`, `none` when the
lookup fails) and produces the reverse mappings via `reverseMapByRange`; a
range that is unavailable or smaller than the minimum usable size 65536 is an
`IdentityRangeError` (§4.1 error conditions). -/
def getReverseUserMaps (subU? subG? : Option LinuxIDMapping)
    (targetUID targetGID : Nat) :
    Except String (List LinuxIDMapping × List LinuxIDMapping) :=
  match subU?, subG? with
  | some subU, some subG =>
    if subU.size < 65536 then
      Except.error "IdentityRangeError: subuid range too small"
    else if subG.size < 65536 then
      Except.error "IdentityRangeError: subgid range too small"
    else
      Except.ok (reverseMapByRange targetUID targetGID subU subG)
  | _, _ => Except.error "IdentityRangeError: subordinate ID range unavailable"

/-! ## Runtime spec fragments (§ Spec Builder) -/

/-- OCI Linux namespace types (`specs.LinuxNamespaceType`). -/
inductive LinuxNamespaceType
  | user | pid | ipc | uts | net | mnt | cgroup
deriving DecidableEq, Repr

/-- `specs.User`: the container process identity. -/
structure SpecUser where
  uid : Nat
  gid : Nat
deriving DecidableEq, Repr

/-- The slice of the OCI runtime spec that the identity-handling code reads
and writes: `Linux.UIDMappings`, `Linux.GIDMappings`, `Linux.Namespaces` and
`Process.User` (`none` until the process block has been finalized). -/
structure RuntimeSpec where
  uidMappings : List LinuxIDMapping
  gidMappings : List LinuxIDMapping
  namespaces : List LinuxNamespaceType
  processUser : Option SpecUser
deriving DecidableEq, Repr

/-- The spec as produced by `createSpec`/`minimalSpec` before identity
finalization: no ID mappings, no user namespace, no process block. -/
def RuntimeSpec.initial : RuntimeSpec :=
  { uidMappings := [], gidMappings := [], namespaces := [], processUser := none }

/-- The target identity computed by `finalizeSpec`
(`launcher_linux.go:280-322`): the current (rootless) uid/gid, overridden by
the image's `USER` when the OCI config declares one (`imgUser`, already
resolved to numeric ids by `tools.BundleUser`/`ParseUint`), overridden in turn
by fakeroot which forces `0:0`. -/
def targetUser (fakeroot : Bool) (currentUID currentGID : Nat)
    (imgUser : Option SpecUser) : SpecUser :=
  let t : SpecUser :=
    match imgUser with
    | some u => u
    | none => ⟨currentUID, currentGID⟩
  if fakeroot then ⟨0, 0⟩ else t

/-- The identity part of `finalizeSpec` (`launcher_linux.go:273-347`): when
the target uid and the current uid are both non-zero, reverse uid/gid mappings
are installed and a `user` namespace entry is appended to the spec's namespace
list; the process user is set to the target identity in every successful
outcome.  The subordinate ranges consumed by `getReverseUserMaps` are passed
as `subU?`/`subG?`. -/
def finalizeSpecUser (fakeroot : Bool) (currentUID currentGID : Nat)
    (imgUser : Option SpecUser) (subU? subG? : Option LinuxIDMapping)
    (spec : RuntimeSpec) : Except String RuntimeSpec :=
  if (targetUser fakeroot currentUID currentGID imgUser).uid ≠ 0 ∧
      currentUID ≠ 0 then
    match getReverseUserMaps subU? subG?
        (targetUser fakeroot currentUID currentGID imgUser).uid
        (targetUser fakeroot currentUID currentGID imgUser).gid with
    | Except.error e => Except.error e
    | Except.ok (uidMap, gidMap) =>
      Except.ok { spec with
        uidMappings := uidMap
        gidMappings := gidMap
        namespaces := spec.namespaces ++ [LinuxNamespaceType.user]
        processUser := some (targetUser fakeroot currentUID currentGID imgUser) }
  else
    Except.ok { spec with
      processUser := some (targetUser fakeroot currentUID currentGID imgUser) }

/-- `Bundle.setProcessUser` (`pkg/ocibundle/native/bundle_linux.go:176-270`):
for a non-root invoking user, sets the process user to the invoking uid/gid,
validates the subordinate ranges (`subU?`/`subG?` stand for the
`fakeroot.GetIDRange` results, `none` when the lookup fails), installs the
uid/gid mappings that preserve the user's own id and map everything else onto
the subordinate range, and appends a `user` namespace entry.  Runs as the
identity function when the invoking uid is 0. -/
def setProcessUser (uid gid : Nat) (subU? subG? : Option LinuxIDMapping)
    (g : RuntimeSpec) : Except String RuntimeSpec :=
  if uid ≠ 0 then
    match subU? with
    | none => Except.error "no subuid range"
    | some subuidRange =>
      if subuidRange.size < 65536 then
        Except.error "subuid range size must be at least 65536"
      else
        match subG? with
        | none => Except.error "no subgid range"
        | some subgidRange =>
          if subgidRange.size ≤ gid then
            Except.error "subuid range size must be at least 65536"
          else
            let uidMap : List LinuxIDMapping :=
              if uid < 65536 then
                [⟨0, subuidRange.hostID, uid⟩,
                 ⟨uid, uid, 1⟩,
                 ⟨uid + 1, subuidRange.hostID + uid, subuidRange.size - uid⟩]
              else
                [⟨0, subuidRange.hostID, 65536⟩,
                 ⟨uid, uid, 1⟩]
            let gidMap : List LinuxIDMapping :=
              if gid < 65536 then
                [⟨0, subgidRange.hostID, gid⟩,
                 ⟨gid, gid, 1⟩,
                 ⟨gid + 1, subgidRange.hostID + gid, subgidRange.size - gid⟩]
              else
                [⟨0, subgidRange.hostID, 65536⟩,
                 ⟨gid, gid, 1⟩]
            Except.ok { g with
              processUser := some ⟨uid, gid⟩
              uidMappings := uidMap
              gidMappings := gidMap
              namespaces := g.namespaces ++ [LinuxNamespaceType.user] }
  else
    Except.ok g

/-! ## Process argv resolution (§ Process Resolver)

`Bundle.setProcessArgs` appears twice in `src/`, with identical bodies:
`pkg/ocibundle/native/bundle_linux.go:277-295` and the `native` bundle
revision at `src/unnamed/part_000:186-204`. -/

/-- `Bundle.setProcessArgs`: the argv passed to `g.SetProcessArgs`.
`process` is the user-supplied process override (`""` when absent), `args`
the user-supplied arguments, `entrypoint`/`cmd` the image config. -/
def setProcessArgs (process : String) (args : List String)
    (entrypoint cmd : List String) : List String :=
  let processArgs := if process ≠ "" then [process] else entrypoint
  if args ≠ [] then
    processArgs ++ args
  else
    if process = "" then processArgs ++ cmd else processArgs

/-- The argv table of spec §4.3, written from the spec's words: the process
override replaces the image entrypoint when present; user args replace the
image cmd when present; otherwise the image cmd is appended only if no
process override was given. -/
def specArgvTable (process : String) (args : List String)
    (entrypoint cmd : List String) : List String :=
  if process = "" then
    if args = [] then entrypoint ++ cmd else entrypoint ++ args
  else
    if args = [] then [process] else process :: args

/-! ## Process environment resolution (§ Process Resolver)

`Bundle.setProcessEnv` from the `native` bundle revision at
`src/unnamed/part_000:209-269`. -/

/-- The fixed helper-library bind directory (`apptainerLibs`,
`src/unnamed/part_000:42`). -/
def apptainerLibs : String := "/.singularity.d/libs"

/-- Modelled from the spec: `generate.Generator.SetProcessEnv` — the
`oci/generate` package is repository code not under `src/`.  It replaces the
first existing `KEY=` entry of the env list, appending `KEY=VALUE` when no
entry for the key exists; this is what gives the §4.3 key-uniqueness
behaviour (later assignments override earlier ones). -/
def setProcessEnvKV (env : List String) (k v : String) : List String :=
  match env with
  | [] => [k ++ "=" ++ v]
  | e :: rest =>
    if goHasPre e (k ++ "=") then (k ++ "=" ++ v) :: rest
    else e :: setProcessEnvKV rest k v

/-- The first loop of `setProcessEnv` (`part_000:224-235`): scan the image
env entries for `PATH` and `LD_LIBRARY_PATH` values, the last occurrence
winning, entries without `=` skipped. -/
def scanImageEnv (imageEnv : List String) : String × String :=
  imageEnv.foldl
    (fun acc env =>
      match splitEnvKV env with
      | none => acc
      | some (k, v) =>
        ((if k = "PATH" then v else acc.1),
         (if k = "LD_LIBRARY_PATH" then v else acc.2)))
    ("", "")

/-- The mutable state of `setProcessEnv`: the env list under construction and
the four specially-treated variables. -/
structure EnvAcc where
  env : List String
  path : String
  appendPath : String
  prependPath : String
  ldLibraryPath : String
deriving DecidableEq, Repr

/-- The per-entry body of the user-env loop of `setProcessEnv`
(`part_000:238-251`): `PATH`, `APPEND_PATH`, `PREPEND_PATH` and
`LD_LIBRARY_PATH` are captured instead of being passed through; every other
key is set directly via `SetProcessEnv`. -/
def applyUserEnvEntry (acc : EnvAcc) (kv : String × String) : EnvAcc :=
  if kv.1 = "PATH" then { acc with path := kv.2 }
  else if kv.1 = "APPEND_PATH" then { acc with appendPath := kv.2 }
  else if kv.1 = "PREPEND_PATH" then { acc with prependPath := kv.2 }
  else if kv.1 = "LD_LIBRARY_PATH" then { acc with ldLibraryPath := kv.2 }
  else { acc with env := setProcessEnvKV acc.env kv.1 kv.2 }

/-- The state after the image scan and the user-env loop of `setProcessEnv`.
The Go user env is a map with unique keys iterated in unspecified order; it
is embedded as an association list folded left-to-right (for distinct keys
the captured `path`/`appendPath`/`prependPath`/`ldLibraryPath` values do not
depend on the order). -/
def userEnvAcc (imageEnv : List String) (userEnv : List (String × String)) :
    EnvAcc :=
  let scanned := scanImageEnv imageEnv
  userEnv.foldl applyUserEnvEntry
    { env := imageEnv
      path := scanned.1
      appendPath := ""
      prependPath := ""
      ldLibraryPath := scanned.2 }

/-- The final `PATH` value computed by `setProcessEnv` (`part_000:253-259`):
the append segment is joined with a `:` whenever it is non-empty, then the
prepend segment likewise. -/
def finalPath (imageEnv : List String) (userEnv : List (String × String)) :
    String :=
  let acc := userEnvAcc imageEnv userEnv
  let path₁ := if acc.appendPath ≠ "" then acc.path ++ ":" ++ acc.appendPath
               else acc.path
  if acc.prependPath ≠ "" then acc.prependPath ++ ":" ++ path₁ else path₁

/-- The final `LD_LIBRARY_PATH` value computed by `setProcessEnv`
(`part_000:264-267`): when the accumulated value does not already contain the
helper-library directory, it is appended after a `:` and a leading `:` is
trimmed. -/
def finalLdLibraryPath (imageEnv : List String)
    (userEnv : List (String × String)) : String :=
  let acc := userEnvAcc imageEnv userEnv
  if goContains acc.ldLibraryPath apptainerLibs then acc.ldLibraryPath
  else goTrimPre (acc.ldLibraryPath ++ ":" ++ apptainerLibs) ":"

/-- `Bundle.setProcessEnv` (`part_000:209-269`): the final env list.  Starts
from the image env, applies the user entries, then sets `PATH` (only when
non-empty) and finally `LD_LIBRARY_PATH`. -/
def setProcessEnv (imageEnv : List String)
    (userEnv : List (String × String)) : List String :=
  let acc := userEnvAcc imageEnv userEnv
  let path := finalPath imageEnv userEnv
  let env₁ := if path ≠ "" then setProcessEnvKV acc.env "PATH" path else acc.env
  setProcessEnvKV env₁ "LD_LIBRARY_PATH" (finalLdLibraryPath imageEnv userEnv)

/-- Helper for the spec-side PATH join: colon-join a list of segments. -/
def joinColon : List String → String
  | [] => ""
  | [s] => s
  | s :: s₂ :: rest => s ++ ":" ++ joinColon (s₂ :: rest)

/-- The PATH join of spec §4.3, written from the spec's words:
`prepend:base:append` with empty segments omitted, so that no leading,
trailing or doubled colon appears when any segment is empty. -/
def specJoinPath (pre base app : String) : String :=
  joinColon (([pre, base, app]).filter fun s => s ≠ "")

/-! ## Launcher option validation (§ Spec Builder, unsupported-option
detection)

`checkOpts` of the current OCI launcher
(`internal/pkg/runtime/launcher/oci/launcher_linux.go:103-193`). -/

/-- The namespace-request flags of `launcher.Options`; only `net` is read by
`checkOpts`. -/
structure NamespacesReq where
  net : Bool
deriving DecidableEq, Repr

/-- The fields of `launcher.Options` read by `checkOpts` (the `launcher`
package's struct declaration is not under `src/`; the fields and their types
are exactly those the `src/` call sites read).  `keyInfoSet` embeds
`KeyInfo != nil`. -/
structure LauncherOptions where
  writable : Bool
  writableTmpfs : Bool
  fuseMount : List String
  noMount : List String
  nvCCLI : Bool
  cleanEnv : Bool
  noEval : Bool
  namespaces : NamespacesReq
  network : String
  networkArgs : List String
  allowSUID : Bool
  securityOpts : List String
  noUmask : Bool
  configFile : String
  shellPath : String
  boot : Bool
  noInit : Bool
  contain : Bool
  containAll : Bool
  appName : String
  keyInfoSet : Bool
  sifFUSE : Bool
deriving DecidableEq, Repr

/-- `unsupportedNoMount` (`launcher_linux.go:53`). -/
def unsupportedNoMount : List String := ["dev", "cwd", "bind-paths"]

/-- One `if cond { badOpt = append(badOpt, name) }` statement of
`checkOpts`. -/
def appendIf (b : List String) (c : Prop) [Decidable c] (x : String) :
    List String :=
  if c then b ++ [x] else b

/-- The `badOpt` accumulation of `checkOpts` (`launcher_linux.go:104-187`),
one `appendIf` per unsupported-option check, in source order;
`WritableTmpfs` only logs an informational message, and the `NoMount` loop
only emits warnings for paths and for entries in `unsupportedNoMount`, so
neither contributes an entry.  `confFile` stands for the build-time constant
`buildcfg.APPTAINER_CONF_FILE`. -/
def checkOptsBad (confFile : String) (lo : LauncherOptions) : List String :=
  let badOpt : List String := []
  let badOpt := appendIf badOpt lo.writable "Writable"
  let badOpt := appendIf badOpt (lo.fuseMount ≠ []) "FuseMount"
  let badOpt := appendIf badOpt lo.nvCCLI "NvCCLI"
  let badOpt := appendIf badOpt lo.cleanEnv "CleanEnv"
  let badOpt := appendIf badOpt lo.noEval "NoEval"
  let badOpt := appendIf badOpt (lo.namespaces.net ∧ lo.network ≠ "none")
    "Network (except none)"
  let badOpt := appendIf badOpt (lo.networkArgs ≠ []) "NetworkArgs"
  let badOpt := appendIf badOpt lo.allowSUID "AllowSUID"
  let badOpt := appendIf badOpt (lo.securityOpts ≠ []) "SecurityOpts"
  let badOpt := appendIf badOpt lo.noUmask "NoUmask"
  let badOpt := appendIf badOpt (lo.configFile ≠ "" ∧ lo.configFile ≠ confFile)
    "ConfigFile"
  let badOpt := appendIf badOpt (lo.shellPath ≠ "") "ShellPath"
  let badOpt := appendIf badOpt lo.boot "Boot"
  let badOpt := appendIf badOpt lo.noInit "NoInit"
  let badOpt := appendIf badOpt lo.contain "Contain"
  let badOpt := appendIf badOpt lo.containAll "ContainAll"
  let badOpt := appendIf badOpt (lo.appName ≠ "") "AppName"
  let badOpt := appendIf badOpt lo.keyInfoSet "KeyInfo"
  appendIf badOpt lo.sifFUSE "SIFFUSE"

/-- `checkOpts` (`launcher_linux.go:103-193`): when the accumulated `badOpt`
list is non-empty, a single `ErrUnsupportedOption` error joining every entry
is returned. -/
def checkOpts (confFile : String) (lo : LauncherOptions) : Except String Unit :=
  if checkOptsBad confFile lo ≠ [] then
    Except.error ("not supported by OCI launcher: " ++
      goJoin (checkOptsBad confFile lo) ",")
  else
    Except.ok ()

/-- The unsupported-option enumeration of spec §4.4, written from the spec's
words as a declarative table (one segment per correctness-relevant option the
OCI launcher cannot honor, in the order the source reports them; advisory
`NoMount` paths are absent because they downgrade to a warning). -/
def specUnsupportedOptions (confFile : String) (lo : LauncherOptions) :
    List String :=
  (if lo.writable then ["Writable"] else []) ++
  (if lo.fuseMount ≠ [] then ["FuseMount"] else []) ++
  (if lo.nvCCLI then ["NvCCLI"] else []) ++
  (if lo.cleanEnv then ["CleanEnv"] else []) ++
  (if lo.noEval then ["NoEval"] else []) ++
  (if lo.namespaces.net ∧ lo.network ≠ "none" then ["Network (except none)"]
   else []) ++
  (if lo.networkArgs ≠ [] then ["NetworkArgs"] else []) ++
  (if lo.allowSUID then ["AllowSUID"] else []) ++
  (if lo.securityOpts ≠ [] then ["SecurityOpts"] else []) ++
  (if lo.noUmask then ["NoUmask"] else []) ++
  (if lo.configFile ≠ "" ∧ lo.configFile ≠ confFile then ["ConfigFile"]
   else []) ++
  (if lo.shellPath ≠ "" then ["ShellPath"] else []) ++
  (if lo.boot then ["Boot"] else []) ++
  (if lo.noInit then ["NoInit"] else []) ++
  (if lo.contain then ["Contain"] else []) ++
  (if lo.containAll then ["ContainAll"] else []) ++
  (if lo.appName ≠ "" then ["AppName"] else []) ++
  (if lo.keyInfoSet then ["KeyInfo"] else []) ++
  (if lo.sifFUSE then ["SIFFUSE"] else [])

/-- `NewLauncher` (`launcher_linux.go:70-98`): `checkOpts` runs first, before
the configuration lookup and home-directory parsing, i.e. before any spec or
bundle work.  `configLoaded` embeds `apptainerconf.GetCurrentConfig() != nil`
and `homeParse` the `parseHomeDir` outcome. -/
def newLauncher (confFile : String) (lo : LauncherOptions)
    (configLoaded : Bool) (homeParse : Except String (String × String)) :
    Except String (LauncherOptions × String × String) :=
  match checkOpts confFile lo with
  | Except.error e => Except.error e
  | Except.ok _ =>
    if ¬ configLoaded then
      Except.error "apptainer configuration is not initialized"
    else
      match homeParse with
      | Except.error e => Except.error e
      | Except.ok h => Except.ok (lo, h.1, h.2)

/-- A `LauncherOptions` value with every option in its zero state (nothing
requested), as produced by `launcher.Options{}` before applying options. -/
def LauncherOptions.default : LauncherOptions :=
  { writable := false, writableTmpfs := false, fuseMount := [], noMount := []
    nvCCLI := false, cleanEnv := false, noEval := false
    namespaces := { net := false }, network := "", networkArgs := []
    allowSUID := false, securityOpts := [], noUmask := false
    configFile := "", shellPath := "", boot := false, noInit := false
    contain := false, containAll := false, appName := ""
    keyInfoSet := false, sifFUSE := false }

/-! ## `findOnPath` (`internal/pkg/util/bin`, `src/unnamed/part_001:82-119`) -/

/-- The process environment, as an association list with `os.Getenv` /
`os.Setenv` semantics (`os.Getenv` of an unset variable returns `""`). -/
def getenvL (env : List (String × String)) (k : String) : String :=
  match env with
  | [] => ""
  | p :: rest => if p.1 == k then p.2 else getenvL rest k

/-- `os.Setenv`: replace the variable's entry, or add it. -/
def setenvL (env : List (String × String)) (k v : String) :
    List (String × String) :=
  match env with
  | [] => [(k, v)]
  | p :: rest => if p.1 == k then (k, v) :: rest else p :: setenvL rest k v

/-- The binary-path fields of the apptainer configuration read by
`findOnPath` (`cfg.BinaryPath`, `cfg.SuidBinaryPath`). -/
structure BinCfg where
  binaryPath : String
  suidBinaryPath : String
deriving DecidableEq, Repr

/-- How a `findOnPath` call ends: `sylog.Fatalf` terminates the process
without returning; `ret` is a normal return carrying the `(path, err)`
result. -/
inductive FindOutcome
  | fatal (msg : String)
  | ret (r : Except String String)
deriving Repr

/-- The core of `findOnPath` (`part_001:103-118`), reached once a
configuration with binary paths is in hand: save `PATH`, override it with the
configured binary path, run `exec.LookPath` (the `look` oracle, reading the
overridden `PATH`), and restore the saved `PATH` via the deferred
`os.Setenv` before returning. -/
def findOnPathCore (look : String → String → Except String String)
    (name : String) (useSuidPath : Bool) (cfg : BinCfg)
    (env : List (String × String)) :
    Except String String × List (String × String) :=
  let newPath := if useSuidPath then cfg.suidBinaryPath else cfg.binaryPath
  let oldPath := getenvL env "PATH"
  let env₁ := setenvL env "PATH" newPath
  let res := look name (getenvL env₁ "PATH")
  (res, setenvL env₁ "PATH" oldPath)

/-- The `SuidBinaryPath == ""` check of `findOnPath` (`part_001:96-102`):
under `go test` the binary paths are initialized from build defaults
(`setBinDefaults` embeds the configuration after
`apptainerconf.SetBinaryPath(LIBEXECDIR, true)`, whose implementation is not
under `src/`); outside tests this state is a fatal error. -/
def findOnPathChecked (look : String → String → Except String String)
    (name : String) (useSuidPath : Bool) (testMode : Bool)
    (setBinDefaults : BinCfg) (cfg : BinCfg)
    (env : List (String × String)) :
    FindOutcome × List (String × String) :=
  if cfg.suidBinaryPath = "" then
    if testMode then
      let r := findOnPathCore look name useSuidPath setBinDefaults env
      (FindOutcome.ret r.1, r.2)
    else
      (FindOutcome.fatal "SetBinaryPath has not been run before findOnPath", env)
  else
    let r := findOnPathCore look name useSuidPath cfg env
    (FindOutcome.ret r.1, r.2)

/-- `findOnPath` (`part_001:82-119`).  `cfg?` embeds
`apptainerconf.GetCurrentConfig()` (`none` when not pre-loaded), `testMode`
the `strings.HasSuffix(os.Args[0], ".test")` check, `parsedCfg` the
`apptainerconf.Parse` outcome used in tests. -/
def findOnPath (look : String → String → Except String String)
    (name : String) (useSuidPath : Bool) (cfg? : Option BinCfg)
    (testMode : Bool) (parsedCfg : Except String BinCfg)
    (setBinDefaults : BinCfg) (env : List (String × String)) :
    FindOutcome × List (String × String) :=
  match cfg? with
  | some cfg => findOnPathChecked look name useSuidPath testMode setBinDefaults cfg env
  | none =>
    if testMode then
      match parsedCfg with
      | Except.error e =>
        (FindOutcome.ret
          (Except.error ("unable to parse apptainer configuration file: " ++ e)), env)
      | Except.ok cfg =>
        findOnPathChecked look name useSuidPath testMode setBinDefaults cfg env
    else
      (FindOutcome.fatal "configuration not pre-loaded in findOnPath", env)

/-! ## Identity-file synthesis and its write effects (§ Mount Assembler /
frame effects)

The current launcher's `prepareEtc`/`preparePasswd`/`prepareGroup`/
`prepareResolvConf` (`launcher_linux.go:375-526`) and the earlier revision's
`updatePasswdGroup` (`src/unnamed/part_003:252-287`).  Each function is
embedded together with the list of filesystem paths it writes. -/

/-- A bind mount from a synthesized file over a container path. -/
structure EtcMount where
  source : String
  destination : String
deriving DecidableEq, Repr

/-- `tools.RootFs(bundlePath).Path()`: the extracted rootfs subtree of the
bundle (spec §6 bundle layout). -/
def rootFsPath (bundlePath : String) : String := bundlePath ++ "/rootfs"

/-- `preparePasswd` (`launcher_linux.go:421-448`): skipped when disabled by
configuration; a failure of `files.Passwd` (e.g. the image has no
`/etc/passwd`, embedded as `passwdFileOk = false`) downgrades to a warning
with nothing written; otherwise the synthesized content is written to
`<bundle>/etc/passwd` and a bind mount onto `/etc/passwd` is returned.  The
pristine rootfs passwd file is only read.  Returns the mount and the list of
paths written. -/
def preparePasswd (configPasswd : Bool) (passwdFileOk : Bool)
    (bundlePath : String) : Option EtcMount × List String :=
  let containerPasswd := bundlePath ++ "/etc/passwd"
  if ¬ configPasswd then (none, [])
  else if ¬ passwdFileOk then (none, [])
  else (some ⟨containerPasswd, "/etc/passwd"⟩, [containerPasswd])

/-- `prepareGroup` (`launcher_linux.go:454-480`): as `preparePasswd`, for
`<bundle>/etc/group`. -/
def prepareGroup (configGroup : Bool) (groupFileOk : Bool)
    (bundlePath : String) : Option EtcMount × List String :=
  let containerGroup := bundlePath ++ "/etc/group"
  if ¬ configGroup then (none, [])
  else if ¬ groupFileOk then (none, [])
  else (some ⟨containerGroup, "/etc/group"⟩, [containerGroup])

/-- `prepareResolvConf` (`launcher_linux.go:485-526`): skipped when disabled;
with a `--dns` list every entry must parse as an IP (the `parseIP` oracle
embeds `net.ParseIP`), otherwise the host's `/etc/resolv.conf` is read
(`hostResolvConf`); on success the data is written to
`<bundle>/etc/resolv.conf` and a bind mount onto `/etc/resolv.conf` is
returned. -/
def prepareResolvConf (configResolvConf : Bool) (dns : List String)
    (parseIP : String → Bool) (hostResolvConf : Except String String)
    (bundlePath : String) :
    Except String (Option EtcMount × List String) :=
  let containerResolvConfPath := bundlePath ++ "/etc/resolv.conf"
  if ¬ configResolvConf then Except.ok (none, [])
  else if dns ≠ [] then
    if dns.all parseIP then
      Except.ok (some ⟨containerResolvConfPath, "/etc/resolv.conf"⟩,
        [containerResolvConfPath])
    else
      Except.error "DNS nameserver is not a valid IP address"
  else
    match hostResolvConf with
    | Except.error e =>
      Except.error ("could not read the resolv.conf file of the host: " ++ e)
    | Except.ok _ =>
      Except.ok (some ⟨containerResolvConfPath, "/etc/resolv.conf"⟩,
        [containerResolvConfPath])

/-- `prepareEtc` (`launcher_linux.go:375-415`): creates `<bundle>/etc`,
synthesizes `resolv.conf`, then — unless the image declares a `USER`
(`containerUser`, which errors when combined with a custom `--home` and
otherwise skips the identity files) — synthesizes passwd and group.  Returns
the bind mounts appended to the spec mount list and every path written. -/
def prepareEtc (configResolvConf configPasswd configGroup : Bool)
    (containerUser customHome : Bool) (dns : List String)
    (parseIP : String → Bool) (hostResolvConf : Except String String)
    (passwdFileOk groupFileOk : Bool) (bundlePath : String) :
    Except String (List EtcMount × List String) :=
  let mkdirWrites := [bundlePath ++ "/etc"]
  match prepareResolvConf configResolvConf dns parseIP hostResolvConf bundlePath with
  | Except.error e => Except.error e
  | Except.ok rm =>
    let resolvMounts := rm.1.toList
    if containerUser then
      if customHome then
        Except.error
          "a custom --home is not currently supported when running containers that declare a USER"
      else
        Except.ok (resolvMounts, mkdirWrites ++ rm.2)
    else
      let pm := preparePasswd configPasswd passwdFileOk bundlePath
      let gm := prepareGroup configGroup groupFileOk bundlePath
      Except.ok (resolvMounts ++ pm.1.toList ++ gm.1.toList,
        mkdirWrites ++ rm.2 ++ pm.2 ++ gm.2)

/-- `updatePasswdGroup` of the earlier launcher revision
(`src/unnamed/part_003:252-287`): a no-op as root or under fakeroot;
otherwise writes the rewritten passwd and group files **directly into the
extracted rootfs** (`rootfs/etc/passwd`, `rootfs/etc/group`).
`currentOriginalOk` embeds the `user.CurrentOriginal` lookup, `passwdGen` and
`groupGen` the `files.Passwd`/`files.Group` content generation (the passwd
write precedes the group generation, so a group failure still leaves the
passwd file written).  Returns the outcome and the paths written. -/
def updatePasswdGroup (uid _gid : Nat) (fakeroot : Bool) (rootfs : String)
    (currentOriginalOk : Bool) (passwdGen groupGen : Except String String) :
    Except String Unit × List String :=
  if uid = 0 ∨ fakeroot then (Except.ok (), [])
  else if ¬ currentOriginalOk then
    (Except.error "could not look up the original user", [])
  else
    let containerPasswd := rootfs ++ "/etc/passwd"
    let containerGroup := rootfs ++ "/etc/group"
    match passwdGen with
    | Except.error e => (Except.error ("while creating passwd file: " ++ e), [])
    | Except.ok _ =>
      match groupGen with
      | Except.error e =>
        (Except.error ("while creating group file: " ++ e), [containerPasswd])
      | Except.ok _ => (Except.ok (), [containerPasswd, containerGroup])

/-! ## The bundle-directory step of `Exec` (§ Bundle Manager / error
handling)

`Launcher.Exec` (`launcher_linux.go:530-627`; the earlier revision
`src/unnamed/part_003:291-299` has the same bundle-directory step). -/

/-- How the early phase of `Exec` ends: an error return, the literal
`return nil` of `launcher_linux.go:551`, or proceeding with the created
bundle directory. -/
inductive ExecEarly
  | errored (e : String)
  | returnedNil
  | proceeded (bundleDir : String)
deriving DecidableEq, Repr

/-- The phase of `Exec` up to and including bundle-directory creation
(`launcher_linux.go:531-552`): the instance-name and SysContext guards, image
normalization, the session tmpfs mount, then
`os.MkdirTemp(buildcfg.SESSIONDIR, "oci-bundle")` — whose failure the source
maps to `return nil` (no error is surfaced). -/
def execPre (instanceName : String) (sysCtxSet : Bool)
    (normalizeResult : Except String String)
    (mountSession : Except String Unit)
    (mkdirTemp : Except String String) : ExecEarly :=
  if instanceName ≠ "" then
    ExecEarly.errored "not implemented by OCI launcher: instanceName"
  else if ¬ sysCtxSet then
    ExecEarly.errored "launcher SysContext must be set for OCI image handling"
  else
    match normalizeResult with
    | Except.error e => ExecEarly.errored e
    | Except.ok _ =>
      match mountSession with
      | Except.error e => ExecEarly.errored e
      | Except.ok _ =>
        match mkdirTemp with
        | Except.error _ => ExecEarly.returnedNil
        | Except.ok d => ExecEarly.proceeded d

/-- Example option set requesting two unsupported options, used to witness
the option-validation theorem. -/
def loEx : LauncherOptions :=
  { LauncherOptions.default with writable := true, boot := true }

/-! # Theorems -/

/-- Validation: `reverseMapByRange` reproduces, exactly, both expected
outcomes pinned by `TestLauncher_reverseMapByRange`
(`launcher_linux_test.go:544-601`): the LowTargetID row (1000/2000 against
65536-sized subordinate ranges) and the HighTargetID row (70000/80000). -/
theorem reverseMapByRange_matches_unit_test :
    reverseMapByRange 1000 2000 ⟨100000, 1000, 65536⟩ ⟨200000, 2000, 65536⟩ =
      ([⟨0, 1, 1000⟩, ⟨1000, 0, 1⟩, ⟨1001, 1001, 64536⟩],
       [⟨0, 1, 2000⟩, ⟨2000, 0, 1⟩, ⟨2001, 2001, 63536⟩]) ∧
    reverseMapByRange 70000 80000 ⟨100000, 1000, 65536⟩ ⟨200000, 2000, 65536⟩ =
      ([⟨0, 1, 65536⟩, ⟨70000, 0, 1⟩],
       [⟨0, 1, 65536⟩, ⟨80000, 0, 1⟩]) := by decide

/-- C1 counterexample: at the concrete input of the LowTargetID unit-test row
(targetUID 1000, subordinate range size 65536) the reverse uid mapping is the
test's expected triple list, whose third triple has length
`size - targetUID = 64536` — not `size - targetUID - 1 = 64535` — and whose
sizes sum to 65537, not to `size = 65536`.  The claim's conjunction is false
at this input. -/
theorem reverseMapByRange_c1_counterexample :
    (reverseMapByRange 1000 2000 ⟨100000, 1000, 65536⟩ ⟨200000, 2000, 65536⟩).1 =
      [⟨0, 1, 1000⟩, ⟨1000, 0, 1⟩, ⟨1001, 1001, 64536⟩] ∧
    mapSizeSum
      (reverseMapByRange 1000 2000 ⟨100000, 1000, 65536⟩ ⟨200000, 2000, 65536⟩).1 = 65537 ∧
    ¬ (mapSizeSum
        (reverseMapByRange 1000 2000 ⟨100000, 1000, 65536⟩ ⟨200000, 2000, 65536⟩).1 = 65536 ∧
       (reverseMapByRange 1000 2000 ⟨100000, 1000, 65536⟩ ⟨200000, 2000, 65536⟩).1.getLast? =
         some ⟨1000 + 1, 1000 + 1, 65536 - 1000 - 1⟩) := by decide

/-- C1 (amended): for every `(targetUID, size)` with `targetUID < size` the
reverse uid mapping consists of exactly three triples whose containerID
ranges are contiguous and non-overlapping; their sizes sum to `size + 1`
(not `size`), and the third triple maps containerID `targetUID + 1` with
length `size - targetUID` (not `size - targetUID - 1`). -/
theorem reverseMapByRange_low_target_shape (targetUID targetGID : Nat)
    (subU subG : LinuxIDMapping) (h : targetUID < subU.size) :
    ((reverseMapByRange targetUID targetGID subU subG).1).length = 3 ∧
    rangesContiguous (reverseMapByRange targetUID targetGID subU subG).1 ∧
    rangesDisjoint (reverseMapByRange targetUID targetGID subU subG).1 ∧
    mapSizeSum (reverseMapByRange targetUID targetGID subU subG).1 = subU.size + 1 ∧
    ((reverseMapByRange targetUID targetGID subU subG).1).getLast? =
      some ⟨targetUID + 1, targetUID + 1, subU.size - targetUID⟩ := by
  have hm : (reverseMapByRange targetUID targetGID subU subG).1 =
      [⟨0, 1, targetUID⟩, ⟨targetUID, 0, 1⟩,
       ⟨targetUID + 1, targetUID + 1, subU.size - targetUID⟩] := by
    simp [reverseMapByRange, h]
  rw [hm]
  refine ⟨rfl, ?_, ?_, ?_, rfl⟩
  · simp [rangesContiguous]
  · simp [rangesDisjoint, tripleDisjoint]
  · simp [mapSizeSum]
    omega

/-- C1 witness: the amended statement evaluated at the unit-test input. -/
theorem reverseMapByRange_low_target_shape_witness :
    ((reverseMapByRange 1000 2000 ⟨100000, 1000, 65536⟩ ⟨200000, 2000, 65536⟩).1).length = 3 ∧
    rangesContiguous
      (reverseMapByRange 1000 2000 ⟨100000, 1000, 65536⟩ ⟨200000, 2000, 65536⟩).1 ∧
    rangesDisjoint
      (reverseMapByRange 1000 2000 ⟨100000, 1000, 65536⟩ ⟨200000, 2000, 65536⟩).1 ∧
    mapSizeSum
      (reverseMapByRange 1000 2000 ⟨100000, 1000, 65536⟩ ⟨200000, 2000, 65536⟩).1 =
      (⟨100000, 1000, 65536⟩ : LinuxIDMapping).size + 1 ∧
    ((reverseMapByRange 1000 2000 ⟨100000, 1000, 65536⟩ ⟨200000, 2000, 65536⟩).1).getLast? =
      some ⟨1000 + 1, 1000 + 1, (⟨100000, 1000, 65536⟩ : LinuxIDMapping).size - 1000⟩ :=
  reverseMapByRange_low_target_shape 1000 2000 ⟨100000, 1000, 65536⟩
    ⟨200000, 2000, 65536⟩ (by decide)

/-- C2 counterexample: an unprivileged launch with current uid 1000, no image
`USER` and no fakeroot (so targetUID = 1000) takes the
`targetUID != 0 && currentUID != 0` branch of `finalizeSpec`: the finalized
spec *does* carry reverse uid/gid mappings and a user-namespace entry, so the
claim that no user-namespace ID mappings are present is false (the process
user is indeed 1000:1000). -/
theorem finalizeSpecUser_c2_counterexample :
    finalizeSpecUser false 1000 1000 none (some ⟨100000, 1000, 65536⟩)
        (some ⟨200000, 2000, 65536⟩) RuntimeSpec.initial =
      Except.ok
        { uidMappings := [⟨0, 1, 1000⟩, ⟨1000, 0, 1⟩, ⟨1001, 1001, 64536⟩]
          gidMappings := [⟨0, 1, 1000⟩, ⟨1000, 0, 1⟩, ⟨1001, 1001, 64536⟩]
          namespaces := [LinuxNamespaceType.user]
          processUser := some ⟨1000, 1000⟩ } ∧
    ([⟨0, 1, 1000⟩, ⟨1000, 0, 1⟩, ⟨1001, 1001, 64536⟩] : List LinuxIDMapping) ≠ [] := by
  exact ⟨rfl, by decide⟩

/-- C2 (amended): with current uid 1000, no image `USER` and no fakeroot, the
finalized spec sets the process user to 1000:1000, and — because
`targetUID != 0 && currentUID != 0` — installs non-empty reverse uid/gid
mappings together with a user-namespace entry (for any usable subordinate
ranges). -/
theorem finalizeSpecUser_target_equals_current (subU subG : LinuxIDMapping)
    (hU : 65536 ≤ subU.size) (hG : 65536 ≤ subG.size) :
    ∃ s, finalizeSpecUser false 1000 1000 none (some subU) (some subG)
        RuntimeSpec.initial = Except.ok s ∧
      s.processUser = some ⟨1000, 1000⟩ ∧
      s.uidMappings ≠ [] ∧ s.gidMappings ≠ [] ∧
      LinuxNamespaceType.user ∈ s.namespaces := by
  have h1 : ¬ subU.size < 65536 := by omega
  have h2 : ¬ subG.size < 65536 := by omega
  have h3 : (1000:Nat) < subU.size := by omega
  have h4 : (1000:Nat) < subG.size := by omega
  refine ⟨{ uidMappings := [⟨0, 1, 1000⟩, ⟨1000, 0, 1⟩, ⟨1001, 1001, subU.size - 1000⟩]
            gidMappings := [⟨0, 1, 1000⟩, ⟨1000, 0, 1⟩, ⟨1001, 1001, subG.size - 1000⟩]
            namespaces := [LinuxNamespaceType.user]
            processUser := some ⟨1000, 1000⟩ }, ?_, rfl, by simp, by simp, by simp⟩
  simp [finalizeSpecUser, targetUser, getReverseUserMaps, h1, h2,
    reverseMapByRange, h3, h4, RuntimeSpec.initial]

/-- C2 witness: the amended statement evaluated at the unit-test subordinate
ranges. -/
theorem finalizeSpecUser_target_equals_current_witness :
    ∃ s, finalizeSpecUser false 1000 1000 none (some ⟨100000, 1000, 65536⟩)
        (some ⟨200000, 2000, 65536⟩) RuntimeSpec.initial = Except.ok s ∧
      s.processUser = some ⟨1000, 1000⟩ ∧
      s.uidMappings ≠ [] ∧ s.gidMappings ≠ [] ∧
      LinuxNamespaceType.user ∈ s.namespaces :=
  finalizeSpecUser_target_equals_current ⟨100000, 1000, 65536⟩
    ⟨200000, 2000, 65536⟩ (by decide) (by decide)

/-- Both components of a reverse mapping are non-empty (two or three triples
in either branch). -/
theorem reverseMapByRange_ne_nil (targetUID targetGID : Nat)
    (subU subG : LinuxIDMapping) :
    (reverseMapByRange targetUID targetGID subU subG).1 ≠ [] ∧
    (reverseMapByRange targetUID targetGID subU subG).2 ≠ [] := by
  constructor <;> simp only [reverseMapByRange] <;> split <;> simp

/-- A successful `getReverseUserMaps` returns non-empty uid and gid mapping
lists. -/
theorem getReverseUserMaps_ok_ne_nil {subU? subG? : Option LinuxIDMapping}
    {targetUID targetGID : Nat} {um gm : List LinuxIDMapping}
    (h : getReverseUserMaps subU? subG? targetUID targetGID =
      Except.ok (um, gm)) : um ≠ [] ∧ gm ≠ [] := by
  cases subU? with
  | none => simp [getReverseUserMaps] at h
  | some subU =>
    cases subG? with
    | none => simp [getReverseUserMaps] at h
    | some subG =>
      simp only [getReverseUserMaps] at h
      split at h
      · cases h
      · split at h
        · cases h
        · injection h with h'
          have h₁ := reverseMapByRange_ne_nil targetUID targetGID subU subG
          show (um, gm).1 ≠ [] ∧ (um, gm).2 ≠ []
          rw [← h']
          exact h₁

/-- C4: whenever a non-trivial ID mapping is required — target uid non-zero
while the current uid is non-zero (the unprivileged case) — the finalized
spec carries non-empty UID/GID mappings together with a user-namespace entry;
and in no successful outcome (of either the launcher's `finalizeSpec`
identity step or the native bundle's `setProcessUser`, starting from a spec
without mappings) are mappings present without a user-namespace entry. -/
theorem idMapping_userns_invariant :
    (∀ (fakeroot : Bool) (currentUID currentGID : Nat)
        (imgUser : Option SpecUser) (subU? subG? : Option LinuxIDMapping)
        (spec₀ s : RuntimeSpec),
        spec₀.uidMappings = [] → spec₀.gidMappings = [] →
        finalizeSpecUser fakeroot currentUID currentGID imgUser subU? subG?
          spec₀ = Except.ok s →
        ((((targetUser fakeroot currentUID currentGID imgUser).uid ≠ 0 ∧
            currentUID ≠ 0) →
          s.uidMappings ≠ [] ∧ s.gidMappings ≠ [] ∧
            LinuxNamespaceType.user ∈ s.namespaces) ∧
         (s.uidMappings ≠ [] → LinuxNamespaceType.user ∈ s.namespaces))) ∧
    (∀ (uid gid : Nat) (subU? subG? : Option LinuxIDMapping)
        (g₀ s : RuntimeSpec),
        g₀.uidMappings = [] →
        setProcessUser uid gid subU? subG? g₀ = Except.ok s →
        ((uid ≠ 0 →
          s.uidMappings ≠ [] ∧ LinuxNamespaceType.user ∈ s.namespaces) ∧
         (s.uidMappings ≠ [] → LinuxNamespaceType.user ∈ s.namespaces))) := by
  constructor
  · intro fakeroot currentUID currentGID imgUser subU? subG? spec₀ s hu hg hok
    unfold finalizeSpecUser at hok
    split at hok
    case isTrue hc =>
      split at hok
      case h_1 => cases hok
      case h_2 um gm heq =>
        injection hok with hok
        obtain ⟨hum, hgm⟩ := getReverseUserMaps_ok_ne_nil heq
        subst hok
        refine ⟨fun _ => ⟨hum, hgm, ?_⟩, fun _ => ?_⟩ <;> simp
    case isFalse hc =>
      injection hok with hok
      subst hok
      exact ⟨fun h => absurd h hc, fun h => absurd hu h⟩
  · intro uid gid subU? subG? g₀ s hu hok
    unfold setProcessUser at hok
    split at hok
    case isTrue hne =>
      split at hok
      case h_1 => cases hok
      case h_2 subuidRange =>
        split at hok
        · cases hok
        · split at hok
          case h_1 => cases hok
          case h_2 subgidRange =>
            split at hok
            · cases hok
            · injection hok with hok
              subst hok
              constructor
              · intro _
                constructor
                · simp only []
                  split <;> simp
                · simp
              · intro _
                simp
    case isFalse hne =>
      injection hok with hok
      subst hok
      exact ⟨fun h => absurd h hne, fun h => absurd hu h⟩

/-- C4 witness: the invariant evaluated on the launcher path at current uid
1000 with no image `USER` and the unit-test subordinate ranges. -/
theorem idMapping_userns_invariant_witness :
    ((((targetUser false 1000 1000 none).uid ≠ 0 ∧ (1000:Nat) ≠ 0) →
      ({ uidMappings := [⟨0, 1, 1000⟩, ⟨1000, 0, 1⟩, ⟨1001, 1001, 64536⟩]
         gidMappings := [⟨0, 1, 1000⟩, ⟨1000, 0, 1⟩, ⟨1001, 1001, 64536⟩]
         namespaces := [LinuxNamespaceType.user]
         processUser := some ⟨1000, 1000⟩ } : RuntimeSpec).uidMappings ≠ [] ∧
      ({ uidMappings := [⟨0, 1, 1000⟩, ⟨1000, 0, 1⟩, ⟨1001, 1001, 64536⟩]
         gidMappings := [⟨0, 1, 1000⟩, ⟨1000, 0, 1⟩, ⟨1001, 1001, 64536⟩]
         namespaces := [LinuxNamespaceType.user]
         processUser := some ⟨1000, 1000⟩ } : RuntimeSpec).gidMappings ≠ [] ∧
      LinuxNamespaceType.user ∈
        ({ uidMappings := [⟨0, 1, 1000⟩, ⟨1000, 0, 1⟩, ⟨1001, 1001, 64536⟩]
           gidMappings := [⟨0, 1, 1000⟩, ⟨1000, 0, 1⟩, ⟨1001, 1001, 64536⟩]
           namespaces := [LinuxNamespaceType.user]
           processUser := some ⟨1000, 1000⟩ } : RuntimeSpec).namespaces) ∧
     (({ uidMappings := [⟨0, 1, 1000⟩, ⟨1000, 0, 1⟩, ⟨1001, 1001, 64536⟩]
         gidMappings := [⟨0, 1, 1000⟩, ⟨1000, 0, 1⟩, ⟨1001, 1001, 64536⟩]
         namespaces := [LinuxNamespaceType.user]
         processUser := some ⟨1000, 1000⟩ } : RuntimeSpec).uidMappings ≠ [] →
      LinuxNamespaceType.user ∈
        ({ uidMappings := [⟨0, 1, 1000⟩, ⟨1000, 0, 1⟩, ⟨1001, 1001, 64536⟩]
           gidMappings := [⟨0, 1, 1000⟩, ⟨1000, 0, 1⟩, ⟨1001, 1001, 64536⟩]
           namespaces := [LinuxNamespaceType.user]
           processUser := some ⟨1000, 1000⟩ } : RuntimeSpec).namespaces)) :=
  idMapping_userns_invariant.1 false 1000 1000 none
    (some ⟨100000, 1000, 65536⟩) (some ⟨200000, 2000, 65536⟩)
    RuntimeSpec.initial _ rfl rfl rfl

/-- Validation: `setProcessArgs` reproduces all ten rows of
`TestGetProcessArgs` (`launcher_linux_test.go:307-425`). -/
theorem setProcessArgs_matches_unit_test :
    setProcessArgs "" [] ["ENTRYPOINT"] [] = ["ENTRYPOINT"] ∧
    setProcessArgs "" [] [] ["CMD"] = ["CMD"] ∧
    setProcessArgs "" [] ["ENTRYPOINT"] ["CMD"] = ["ENTRYPOINT", "CMD"] ∧
    setProcessArgs "PROCESS" [] [] [] = ["PROCESS"] ∧
    setProcessArgs "" ["ARGS"] [] [] = ["ARGS"] ∧
    setProcessArgs "PROCESS" ["ARGS"] [] [] = ["PROCESS", "ARGS"] ∧
    setProcessArgs "PROCESS" [] ["ENTRYPOINT"] [] = ["PROCESS"] ∧
    setProcessArgs "" ["ARGS"] [] ["CMD"] = ["ARGS"] ∧
    setProcessArgs "PROCESS" [] ["ENTRYPOINT"] ["CMD"] = ["PROCESS"] ∧
    setProcessArgs "" ["ARGS"] ["ENTRYPOINT"] ["CMD"] = ["ENTRYPOINT", "ARGS"] ∧
    setProcessArgs "PROCESS" ["ARGS"] ["ENTRYPOINT"] ["CMD"] =
      ["PROCESS", "ARGS"] := by decide

/-- C3: for every combination of user process override, user args, image
entrypoint and image cmd, the resolved argv equals the §4.3 table: the
process override replaces the entrypoint when present, user args replace the
image cmd when present, and the image cmd is appended only when no process
override was given (yielding E C, E args, process, process args). -/
theorem setProcessArgs_matches_table (process : String)
    (args entrypoint cmd : List String) :
    setProcessArgs process args entrypoint cmd =
      specArgvTable process args entrypoint cmd := by
  by_cases hp : process = "" <;> by_cases ha : args = ([] : List String) <;>
    simp [setProcessArgs, specArgvTable, hp, ha]

/-- Replacing or adding a key always leaves a `KEY=VALUE` entry for that key
in the env list. -/
theorem mem_setProcessEnvKV (env : List String) (k v : String) :
    (k ++ "=" ++ v) ∈ setProcessEnvKV env k v := by
  induction env with
  | nil => simp [setProcessEnvKV]
  | cons e rest ih =>
    by_cases h : goHasPre e (k ++ "=") <;> simp [setProcessEnvKV, h, ih]

/-- An entry whose key is different (it does not start with `KEY=`) survives
a `SetProcessEnv` for that key. -/
theorem mem_setProcessEnvKV_of_mem {e : String} {env : List String}
    {k v : String} (hm : e ∈ env) (hk : goHasPre e (k ++ "=") = false) :
    e ∈ setProcessEnvKV env k v := by
  induction env with
  | nil => cases hm
  | cons e' rest ih =>
    by_cases h : goHasPre e' (k ++ "=")
    · rcases List.mem_cons.mp hm with he | he
      · subst he
        rw [h] at hk
        cases hk
      · simp [setProcessEnvKV, h, he]
    · rcases List.mem_cons.mp hm with he | he
      · subst he
        simp [setProcessEnvKV, h]
      · simp [setProcessEnvKV, h, ih he]

/-- Substring search succeeds on every actual infix. -/
theorem goContainsAux_of_infix {sub l : List Char} (h : sub <:+: l) :
    goContainsAux sub l = true := by
  induction l with
  | nil =>
    rw [List.infix_nil] at h
    subst h
    rfl
  | cons c t ih =>
    rcases List.infix_cons_iff.mp h with hpre | hinf
    · simp [goContainsAux, List.isPrefixOf_iff_prefix.mpr hpre]
    · simp [goContainsAux, ih hinf]

/-- Appending the helper-library directory after a colon and trimming a
possible leading colon always yields a string containing the directory. -/
theorem goContains_append_libs (ld : String) :
    goContains (goTrimPre (ld ++ ":" ++ apptainerLibs) ":") apptainerLibs = true := by
  have hdata : (ld ++ ":" ++ apptainerLibs).data =
      (ld.data ++ [':']) ++ apptainerLibs.data := by
    rw [String.data_append, String.data_append]
  by_cases h : goHasPre (ld ++ ":" ++ apptainerLibs) ":"
  · rw [goTrimPre, if_pos h]
    show goContainsAux apptainerLibs.data ((ld ++ ":" ++ apptainerLibs).data.drop 1) = true
    rw [hdata]
    apply goContainsAux_of_infix
    have hlen : 1 ≤ (ld.data ++ [':']).length := by simp
    rw [List.drop_append_of_le_length hlen]
    exact (List.suffix_append _ _).isInfix
  · rw [goTrimPre, if_neg h]
    show goContainsAux apptainerLibs.data (ld ++ ":" ++ apptainerLibs).data = true
    rw [hdata]
    apply goContainsAux_of_infix
    exact (List.suffix_append _ _).isInfix

/-- C7: for every combination of image-declared and user-declared
`LD_LIBRARY_PATH` (including both absent), the final container environment
contains an `LD_LIBRARY_PATH` entry whose value includes the fixed
helper-library directory `/.singularity.d/libs`, and the directory is
appended only when the accumulated value does not already contain it. -/
theorem setProcessEnv_ld_library_path (imageEnv : List String)
    (userEnv : List (String × String)) :
    ("LD_LIBRARY_PATH=" ++ finalLdLibraryPath imageEnv userEnv) ∈
      setProcessEnv imageEnv userEnv ∧
    goContains (finalLdLibraryPath imageEnv userEnv) apptainerLibs = true ∧
    (goContains (userEnvAcc imageEnv userEnv).ldLibraryPath apptainerLibs = true →
      finalLdLibraryPath imageEnv userEnv =
        (userEnvAcc imageEnv userEnv).ldLibraryPath) := by
  refine ⟨?_, ?_, ?_⟩
  · exact mem_setProcessEnvKV _ _ _
  · by_cases h : goContains (userEnvAcc imageEnv userEnv).ldLibraryPath apptainerLibs
    · simp [finalLdLibraryPath, h]
    · simp only [finalLdLibraryPath, h, Bool.false_eq_true, if_false]
      exact goContains_append_libs _
  · intro h
    simp [finalLdLibraryPath, h]

/-- C7 witness: the guarantee evaluated with an image-declared
`LD_LIBRARY_PATH` and a user override. -/
theorem setProcessEnv_ld_library_path_witness :
    ("LD_LIBRARY_PATH=" ++
        finalLdLibraryPath ["LD_LIBRARY_PATH=/foo"] [("LD_LIBRARY_PATH", "/bar")]) ∈
      setProcessEnv ["LD_LIBRARY_PATH=/foo"] [("LD_LIBRARY_PATH", "/bar")] ∧
    goContains
      (finalLdLibraryPath ["LD_LIBRARY_PATH=/foo"] [("LD_LIBRARY_PATH", "/bar")])
      apptainerLibs = true ∧
    (goContains
        (userEnvAcc ["LD_LIBRARY_PATH=/foo"] [("LD_LIBRARY_PATH", "/bar")]).ldLibraryPath
        apptainerLibs = true →
      finalLdLibraryPath ["LD_LIBRARY_PATH=/foo"] [("LD_LIBRARY_PATH", "/bar")] =
        (userEnvAcc ["LD_LIBRARY_PATH=/foo"] [("LD_LIBRARY_PATH", "/bar")]).ldLibraryPath) :=
  setProcessEnv_ld_library_path ["LD_LIBRARY_PATH=/foo"] [("LD_LIBRARY_PATH", "/bar")]

/-- Validation: `setProcessEnv` reproduces the env combinations of
`TestGetProcessEnv` (`launcher_linux_test.go:427-542`): default, image PATH,
PATH override, APPEND_PATH, PREPEND_PATH, image / user / overridden
`LD_LIBRARY_PATH`, and plain variables. -/
theorem setProcessEnv_matches_unit_test :
    setProcessEnv [] [] = ["LD_LIBRARY_PATH=/.singularity.d/libs"] ∧
    setProcessEnv ["PATH=/foo"] [] =
      ["PATH=/foo", "LD_LIBRARY_PATH=/.singularity.d/libs"] ∧
    setProcessEnv ["PATH=/foo"] [("PATH", "/bar")] =
      ["PATH=/bar", "LD_LIBRARY_PATH=/.singularity.d/libs"] ∧
    setProcessEnv ["PATH=/foo"] [("APPEND_PATH", "/bar")] =
      ["PATH=/foo:/bar", "LD_LIBRARY_PATH=/.singularity.d/libs"] ∧
    setProcessEnv ["PATH=/foo"] [("PREPEND_PATH", "/bar")] =
      ["PATH=/bar:/foo", "LD_LIBRARY_PATH=/.singularity.d/libs"] ∧
    setProcessEnv ["LD_LIBRARY_PATH=/foo"] [] =
      ["LD_LIBRARY_PATH=/foo:/.singularity.d/libs"] ∧
    setProcessEnv [] [("LD_LIBRARY_PATH", "/foo")] =
      ["LD_LIBRARY_PATH=/foo:/.singularity.d/libs"] ∧
    setProcessEnv ["LD_LIBRARY_PATH=/foo"] [("LD_LIBRARY_PATH", "/bar")] =
      ["LD_LIBRARY_PATH=/bar:/.singularity.d/libs"] ∧
    setProcessEnv ["FOO=bar"] [] =
      ["FOO=bar", "LD_LIBRARY_PATH=/.singularity.d/libs"] ∧
    setProcessEnv ["FOO=bar"] [("FOO", "baz")] =
      ["FOO=baz", "LD_LIBRARY_PATH=/.singularity.d/libs"] := by decide

/-- C8 counterexample: with no image-declared `PATH` (base empty) and user
`PREPEND_PATH=/p`, `APPEND_PATH=/a`, the code joins the segments with
unconditional colons and produces `PATH=/p::/a` (a doubled colon), while the
claim's empty-segment-omitting join would give `PATH=/p:/a`; the claimed
entry is not in the final environment. -/
theorem setProcessEnv_c8_counterexample :
    finalPath [] [("PREPEND_PATH", "/p"), ("APPEND_PATH", "/a")] = "/p::/a" ∧
    specJoinPath "/p" "" "/a" = "/p:/a" ∧
    ("/p::/a" : String) ≠ "/p:/a" ∧
    ("PATH=/p::/a") ∈ setProcessEnv [] [("PREPEND_PATH", "/p"), ("APPEND_PATH", "/a")] ∧
    ("PATH=/p:/a") ∉ setProcessEnv [] [("PREPEND_PATH", "/p"), ("APPEND_PATH", "/a")] := by
  decide

/-- A `PATH=` entry never starts with `LD_LIBRARY_PATH=`. -/
theorem goHasPre_path_ld (p : String) :
    goHasPre ("PATH=" ++ p) ("LD_LIBRARY_PATH" ++ "=") = false := by
  rw [goHasPre, String.data_append]
  rfl

/-- C8 (amended): the final `PATH` value is
`prepend ++ ":"` (inserted exactly when the prepend segment is non-empty)
followed by the base, followed by `":" ++ append` (inserted exactly when the
append segment is non-empty).  When the base is non-empty this coincides with
the claimed empty-segment-omitting join `prepend:base:append`, but when the
base is empty a leading, trailing or doubled colon is produced.  Whenever the
computed value is non-empty, the final environment carries it as its `PATH`
entry. -/
theorem setProcessEnv_path_value (imageEnv : List String)
    (userEnv : List (String × String)) :
    (finalPath imageEnv userEnv =
      (if (userEnvAcc imageEnv userEnv).prependPath ≠ ""
        then (userEnvAcc imageEnv userEnv).prependPath ++ ":" else "") ++
      (if (userEnvAcc imageEnv userEnv).appendPath ≠ ""
        then (userEnvAcc imageEnv userEnv).path ++ ":" ++
          (userEnvAcc imageEnv userEnv).appendPath
        else (userEnvAcc imageEnv userEnv).path)) ∧
    ((userEnvAcc imageEnv userEnv).path ≠ "" →
      finalPath imageEnv userEnv =
        specJoinPath (userEnvAcc imageEnv userEnv).prependPath
          (userEnvAcc imageEnv userEnv).path
          (userEnvAcc imageEnv userEnv).appendPath) ∧
    (finalPath imageEnv userEnv ≠ "" →
      ("PATH=" ++ finalPath imageEnv userEnv) ∈ setProcessEnv imageEnv userEnv) := by
  refine ⟨?_, ?_, ?_⟩
  · by_cases hpre : (userEnvAcc imageEnv userEnv).prependPath = "" <;>
      simp [finalPath, hpre]
  · intro hbase
    by_cases hpre : (userEnvAcc imageEnv userEnv).prependPath = "" <;>
      by_cases happ : (userEnvAcc imageEnv userEnv).appendPath = "" <;>
        simp [finalPath, specJoinPath, joinColon, hpre, happ, hbase,
          String.append_assoc]
  · intro hne
    show ("PATH=" ++ finalPath imageEnv userEnv) ∈
      setProcessEnvKV
        (if finalPath imageEnv userEnv ≠ ""
          then setProcessEnvKV (userEnvAcc imageEnv userEnv).env "PATH"
            (finalPath imageEnv userEnv)
          else (userEnvAcc imageEnv userEnv).env)
        "LD_LIBRARY_PATH" (finalLdLibraryPath imageEnv userEnv)
    rw [if_pos hne]
    exact mem_setProcessEnvKV_of_mem (mem_setProcessEnvKV _ _ _)
      (goHasPre_path_ld _)

/-- C8 witness: the amended statement evaluated at an image `PATH=/foo` with
a user `APPEND_PATH=/bar`. -/
theorem setProcessEnv_path_value_witness :
    (finalPath ["PATH=/foo"] [("APPEND_PATH", "/bar")] =
      (if (userEnvAcc ["PATH=/foo"] [("APPEND_PATH", "/bar")]).prependPath ≠ ""
        then (userEnvAcc ["PATH=/foo"] [("APPEND_PATH", "/bar")]).prependPath ++ ":" else "") ++
      (if (userEnvAcc ["PATH=/foo"] [("APPEND_PATH", "/bar")]).appendPath ≠ ""
        then (userEnvAcc ["PATH=/foo"] [("APPEND_PATH", "/bar")]).path ++ ":" ++
          (userEnvAcc ["PATH=/foo"] [("APPEND_PATH", "/bar")]).appendPath
        else (userEnvAcc ["PATH=/foo"] [("APPEND_PATH", "/bar")]).path)) ∧
    ((userEnvAcc ["PATH=/foo"] [("APPEND_PATH", "/bar")]).path ≠ "" →
      finalPath ["PATH=/foo"] [("APPEND_PATH", "/bar")] =
        specJoinPath (userEnvAcc ["PATH=/foo"] [("APPEND_PATH", "/bar")]).prependPath
          (userEnvAcc ["PATH=/foo"] [("APPEND_PATH", "/bar")]).path
          (userEnvAcc ["PATH=/foo"] [("APPEND_PATH", "/bar")]).appendPath) ∧
    (finalPath ["PATH=/foo"] [("APPEND_PATH", "/bar")] ≠ "" →
      ("PATH=" ++ finalPath ["PATH=/foo"] [("APPEND_PATH", "/bar")]) ∈
        setProcessEnv ["PATH=/foo"] [("APPEND_PATH", "/bar")]) :=
  setProcessEnv_path_value ["PATH=/foo"] [("APPEND_PATH", "/bar")]

/-- Unfolding rule for one unsupported-option check. -/
theorem appendIf_eq (b : List String) (c : Prop) [Decidable c] (x : String) :
    appendIf b c x = b ++ (if c then [x] else []) := by
  by_cases h : c <;> simp [appendIf, h]

/-- The accumulated `badOpt` list is exactly the declarative enumeration of
the unsupported options requested. -/
theorem checkOptsBad_eq_spec (confFile : String) (lo : LauncherOptions) :
    checkOptsBad confFile lo = specUnsupportedOptions confFile lo := by
  simp [checkOptsBad, appendIf_eq, specUnsupportedOptions, List.append_assoc]

/-- C9: for every option set, `checkOpts` succeeds exactly when no
unsupported option is requested, and otherwise returns the single
`ErrUnsupportedOption` error enumerating every unsupported option requested;
the advisory `NoMount` entries never influence the outcome (they downgrade to
warnings); and whenever an unsupported option is present, launcher
construction (`NewLauncher`) fails with that same enumeration before any
configuration or home-directory work. -/
theorem checkOpts_unsupported_enumeration (confFile : String)
    (lo : LauncherOptions) :
    checkOpts confFile lo =
      (if specUnsupportedOptions confFile lo = [] then Except.ok ()
       else Except.error ("not supported by OCI launcher: " ++
         goJoin (specUnsupportedOptions confFile lo) ",")) ∧
    (∀ nm, checkOpts confFile { lo with noMount := nm } = checkOpts confFile lo) ∧
    (∀ (configLoaded : Bool) (homeParse : Except String (String × String)),
      specUnsupportedOptions confFile lo ≠ [] →
      newLauncher confFile lo configLoaded homeParse =
        Except.error ("not supported by OCI launcher: " ++
          goJoin (specUnsupportedOptions confFile lo) ",")) := by
  have hmain : checkOpts confFile lo =
      (if specUnsupportedOptions confFile lo = [] then Except.ok ()
       else Except.error ("not supported by OCI launcher: " ++
         goJoin (specUnsupportedOptions confFile lo) ",")) := by
    unfold checkOpts
    rw [checkOptsBad_eq_spec]
    by_cases h : specUnsupportedOptions confFile lo = [] <;> simp [h]
  refine ⟨hmain, fun nm => rfl, ?_⟩
  intro configLoaded homeParse h
  have hc : checkOpts confFile lo =
      Except.error ("not supported by OCI launcher: " ++
        goJoin (specUnsupportedOptions confFile lo) ",") := by
    rw [hmain, if_neg h]
  unfold newLauncher
  rw [hc]

/-- C9 witness: a launch requesting `Writable` and `Boot` fails construction
with both options enumerated. -/
theorem checkOpts_unsupported_enumeration_witness :
    newLauncher "/usr/local/etc/apptainer/apptainer.conf" loEx true
        (Except.ok ("", "/home/user")) =
      Except.error ("not supported by OCI launcher: " ++
        goJoin (specUnsupportedOptions
          "/usr/local/etc/apptainer/apptainer.conf" loEx) ",") :=
  (checkOpts_unsupported_enumeration
    "/usr/local/etc/apptainer/apptainer.conf" loEx).2.2 true
    (Except.ok ("", "/home/user")) (by decide)

/-- After `os.Setenv k v`, `os.Getenv k` returns `v`. -/
theorem getenvL_setenvL_same (env : List (String × String)) (k v : String) :
    getenvL (setenvL env k v) k = v := by
  induction env with
  | nil => simp [setenvL, getenvL]
  | cons p rest ih =>
    by_cases h : p.1 == k
    · simp [setenvL, getenvL, h]
    · simp [setenvL, getenvL, h, ih]

/-- `os.Setenv k v` leaves every other variable unchanged. -/
theorem getenvL_setenvL_other (env : List (String × String)) (k v k' : String)
    (h : k' ≠ k) :
    getenvL (setenvL env k v) k' = getenvL env k' := by
  have hb : (k == k') = false := by
    simp only [beq_eq_false_iff_ne, ne_eq]
    exact fun hc => h hc.symm
  induction env with
  | nil => simp [setenvL, getenvL, hb]
  | cons p rest ih =>
    by_cases hp : p.1 == k
    · have hp1 : p.1 = k := by simpa using hp
      simp [setenvL, getenvL, hp, hb, hp1]
    · simp [setenvL, getenvL, hp, ih]

/-- The save/override/restore core of `findOnPath` restores the whole
environment: every variable reads back its original value. -/
theorem findOnPathCore_env (look : String → String → Except String String)
    (name : String) (useSuidPath : Bool) (cfg : BinCfg)
    (env : List (String × String)) (k : String) :
    getenvL (findOnPathCore look name useSuidPath cfg env).2 k = getenvL env k := by
  unfold findOnPathCore
  by_cases h : k = "PATH"
  · subst h
    rw [getenvL_setenvL_same]
  · rw [getenvL_setenvL_other _ _ _ _ h, getenvL_setenvL_other _ _ _ _ h]

/-- The checked variant preserves the environment in all outcomes. -/
theorem findOnPathChecked_env (look : String → String → Except String String)
    (name : String) (useSuidPath : Bool) (testMode : Bool)
    (setBinDefaults cfg : BinCfg) (env : List (String × String)) (k : String) :
    getenvL
      (findOnPathChecked look name useSuidPath testMode setBinDefaults cfg env).2 k =
      getenvL env k := by
  unfold findOnPathChecked
  split
  · split
    · exact findOnPathCore_env look name useSuidPath setBinDefaults env k
    · rfl
  · exact findOnPathCore_env look name useSuidPath cfg env k

/-- C10: for every executable name and search outcome (found, not found, or
error — including the fatal and test-mode configuration paths), `findOnPath`
leaves the process environment as it found it: `PATH` (and every other
variable) reads back its value from before the call, the temporary override
to the configured binary path having been restored by the deferred
`os.Setenv`. -/
theorem findOnPath_env_frame (look : String → String → Except String String)
    (name : String) (useSuidPath : Bool) (cfg? : Option BinCfg)
    (testMode : Bool) (parsedCfg : Except String BinCfg)
    (setBinDefaults : BinCfg) (env : List (String × String)) (k : String) :
    getenvL
      (findOnPath look name useSuidPath cfg? testMode parsedCfg setBinDefaults
        env).2 k = getenvL env k := by
  unfold findOnPath
  cases cfg? with
  | some cfg => exact findOnPathChecked_env look name useSuidPath testMode setBinDefaults cfg env k
  | none =>
    by_cases ht : testMode
    · rw [if_pos ht]
      cases parsedCfg with
      | error e => rfl
      | ok cfg => exact findOnPathChecked_env look name useSuidPath testMode setBinDefaults cfg env k
    · rw [if_neg ht]

/-- C5 counterexample: in the earlier launcher revision, an unprivileged
non-fakeroot launch (uid 1000) runs `updatePasswdGroup`, which writes the
rewritten passwd and group files directly into the pristine extracted rootfs
— so identity-file preparation does modify files under the rootfs in that
launch, contradicting the claim for "any launch". -/
theorem updatePasswdGroup_c5_counterexample :
    (updatePasswdGroup 1000 1000 false (rootFsPath "/tmp/bundle") true
        (Except.ok "passwd-content") (Except.ok "group-content")).2 =
      ["/tmp/bundle/rootfs/etc/passwd", "/tmp/bundle/rootfs/etc/group"] ∧
    goHasPre "/tmp/bundle/rootfs/etc/passwd" (rootFsPath "/tmp/bundle") = true ∧
    goHasPre "/tmp/bundle/rootfs/etc/group" (rootFsPath "/tmp/bundle") = true := by
  decide

/-- Prefixes cancel on the left of a string append. -/
theorem goHasPre_append_left (x a b : String) :
    goHasPre (x ++ a) (x ++ b) = goHasPre a b := by
  unfold goHasPre
  rw [String.data_append, String.data_append]
  by_cases h : b.data <+: a.data
  · rw [List.isPrefixOf_iff_prefix.mpr h,
      List.isPrefixOf_iff_prefix.mpr ((List.prefix_append_right_inj x.data).mpr h)]
  · have h1 : ¬ (x.data ++ b.data <+: x.data ++ a.data) := fun hc =>
      h ((List.prefix_append_right_inj x.data).mp hc)
    have e1 : (x.data ++ b.data).isPrefixOf (x.data ++ a.data) = false := by
      rw [Bool.eq_false_iff]
      exact fun hc => h1 (List.isPrefixOf_iff_prefix.mp hc)
    have e2 : b.data.isPrefixOf a.data = false := by
      rw [Bool.eq_false_iff]
      exact fun hc => h (List.isPrefixOf_iff_prefix.mp hc)
    rw [e1, e2]

/-- A path `bundlePath ++ suffix` with an `/etc`-rooted suffix lies under the
bundle's `etc` side-tree and not under the extracted rootfs. -/
theorem etc_path_ok (b suffix : String) (h1 : goHasPre suffix "/etc" = true)
    (h2 : goHasPre suffix "/rootfs" = false) :
    goHasPre (b ++ suffix) (b ++ "/etc") = true ∧
    goHasPre (b ++ suffix) (rootFsPath b) = false := by
  constructor
  · rw [goHasPre_append_left]
    exact h1
  · rw [rootFsPath, goHasPre_append_left]
    exact h2

/-- The resolv.conf synthesis writes nothing or exactly the bundle-side
`etc/resolv.conf`. -/
theorem prepareResolvConf_writes (configResolvConf : Bool) (dns : List String)
    (parseIP : String → Bool) (hostResolvConf : Except String String)
    (bundlePath : String) (r : Option EtcMount × List String)
    (hok : prepareResolvConf configResolvConf dns parseIP hostResolvConf
      bundlePath = Except.ok r) :
    r.2 = [] ∨ r.2 = [bundlePath ++ "/etc/resolv.conf"] := by
  unfold prepareResolvConf at hok
  split at hok
  · injection hok with hok
    subst hok
    exact Or.inl rfl
  · split at hok
    · split at hok
      · injection hok with hok
        subst hok
        exact Or.inr rfl
      · cases hok
    · split at hok
      · cases hok
      · injection hok with hok
        subst hok
        exact Or.inr rfl

/-- The passwd synthesis writes nothing or exactly the bundle-side
`etc/passwd`. -/
theorem preparePasswd_writes (configPasswd passwdFileOk : Bool)
    (bundlePath : String) :
    (preparePasswd configPasswd passwdFileOk bundlePath).2 = [] ∨
    (preparePasswd configPasswd passwdFileOk bundlePath).2 =
      [bundlePath ++ "/etc/passwd"] := by
  unfold preparePasswd
  split
  · exact Or.inl rfl
  · split
    · exact Or.inl rfl
    · exact Or.inr rfl

/-- The group synthesis writes nothing or exactly the bundle-side
`etc/group`. -/
theorem prepareGroup_writes (configGroup groupFileOk : Bool)
    (bundlePath : String) :
    (prepareGroup configGroup groupFileOk bundlePath).2 = [] ∨
    (prepareGroup configGroup groupFileOk bundlePath).2 =
      [bundlePath ++ "/etc/group"] := by
  unfold prepareGroup
  split
  · exact Or.inl rfl
  · split
    · exact Or.inl rfl
    · exact Or.inr rfl

/-- C5 (amended): in the current launcher, every path written by identity-file
synthesis (`prepareEtc`, covering `/etc/passwd`, `/etc/group` and
`/etc/resolv.conf`) lies under the bundle's own `etc` side-tree — which is
bind-mounted over the container paths — and no written path lies under the
pristine extracted rootfs.  (The earlier revision's `updatePasswdGroup`
violates this; see the counterexample.) -/
theorem prepareEtc_writes_only_bundle_etc
    (configResolvConf configPasswd configGroup containerUser customHome : Bool)
    (dns : List String) (parseIP : String → Bool)
    (hostResolvConf : Except String String) (passwdFileOk groupFileOk : Bool)
    (bundlePath : String) (mounts : List EtcMount) (writes : List String)
    (hok : prepareEtc configResolvConf configPasswd configGroup containerUser
      customHome dns parseIP hostResolvConf passwdFileOk groupFileOk
      bundlePath = Except.ok (mounts, writes)) :
    ∀ p ∈ writes, goHasPre p (bundlePath ++ "/etc") = true ∧
      goHasPre p (rootFsPath bundlePath) = false := by
  intro p hp
  unfold prepareEtc at hok
  split at hok
  · cases hok
  case h_2 rm heq =>
    have hrm := prepareResolvConf_writes configResolvConf dns parseIP
      hostResolvConf bundlePath rm heq
    split at hok
    · split at hok
      · cases hok
      · injection hok with hok
        rw [Prod.mk.injEq] at hok
        obtain ⟨-, hw⟩ := hok
        subst hw
        rcases List.mem_append.mp hp with hmk | hrest
        · rw [List.mem_singleton.mp hmk]
          exact etc_path_ok bundlePath "/etc" (by decide) (by decide)
        · rcases hrm with hnil | hone
          · rw [hnil] at hrest
            cases hrest
          · rw [hone] at hrest
            rw [List.mem_singleton.mp hrest]
            exact etc_path_ok bundlePath "/etc/resolv.conf" (by decide) (by decide)
    · injection hok with hok
      rw [Prod.mk.injEq] at hok
      obtain ⟨-, hw⟩ := hok
      subst hw
      have hpm := preparePasswd_writes configPasswd passwdFileOk bundlePath
      have hgm := prepareGroup_writes configGroup groupFileOk bundlePath
      rcases List.mem_append.mp hp with hl | hg
      · rcases List.mem_append.mp hl with hl₂ | hpmem
        · rcases List.mem_append.mp hl₂ with hmk | hrmem
          · rw [List.mem_singleton.mp hmk]
            exact etc_path_ok bundlePath "/etc" (by decide) (by decide)
          · rcases hrm with hnil | hone
            · rw [hnil] at hrmem
              cases hrmem
            · rw [hone] at hrmem
              rw [List.mem_singleton.mp hrmem]
              exact etc_path_ok bundlePath "/etc/resolv.conf" (by decide) (by decide)
        · rcases hpm with hnil | hone
          · rw [hnil] at hpmem
            cases hpmem
          · rw [hone] at hpmem
            rw [List.mem_singleton.mp hpmem]
            exact etc_path_ok bundlePath "/etc/passwd" (by decide) (by decide)
      · rcases hgm with hnil | hone
        · rw [hnil] at hg
          cases hg
        · rw [hone] at hg
          rw [List.mem_singleton.mp hg]
          exact etc_path_ok bundlePath "/etc/group" (by decide) (by decide)

/-- C5 witness: a full synthesis run on bundle `/b` writes the bundle-side
passwd file, which is under `/b/etc` and not under `/b/rootfs`. -/
theorem prepareEtc_writes_only_bundle_etc_witness :
    goHasPre "/b/etc/passwd" ("/b" ++ "/etc") = true ∧
    goHasPre "/b/etc/passwd" (rootFsPath "/b") = false :=
  prepareEtc_writes_only_bundle_etc true true true false false [] (fun _ => true)
    (Except.ok "nameserver 10.0.0.1") true true "/b"
    [⟨"/b/etc/resolv.conf", "/etc/resolv.conf"⟩,
     ⟨"/b/etc/passwd", "/etc/passwd"⟩,
     ⟨"/b/etc/group", "/etc/group"⟩]
    ["/b/etc", "/b/etc/resolv.conf", "/b/etc/passwd", "/b/etc/group"]
    rfl "/b/etc/passwd" (by decide)

/-- C6: the bundle-directory step of `Exec` maps an `os.MkdirTemp` failure to
`return nil` — the launch reports success without surfacing any error —
while every other early failure and the success path behave as expected. -/
theorem execPre_swallows_mkdirTemp_error :
    execPre "" true (Except.ok "oci-sif:/tmp/img.sif") (Except.ok ())
        (Except.error "no space left on device") = ExecEarly.returnedNil ∧
    execPre "" true (Except.ok "oci-sif:/tmp/img.sif") (Except.ok ())
        (Except.ok "/session/oci-bundle1") =
      ExecEarly.proceeded "/session/oci-bundle1" ∧
    execPre "" true (Except.ok "oci-sif:/tmp/img.sif")
        (Except.error "mount failed") (Except.error "unused") =
      ExecEarly.errored "mount failed" :=
  ⟨rfl, rfl, rfl⟩

end Apptainer
